import Mathlib

/-!
Shallow embedding of the dispatch engine of the llm-serving gateway.

The definitions below are translated from the Rust sources:
  src/api/dto.rs     - request and response data types
  src/api/auth.rs    - the auth and rate-limit gate
  src/api/routes.rs  - the HTTP handlers
  src/api/error.rs   - the AppError type and its status mapping
  src/engine/mod.rs  - CoreEngine: worker pool, cache, admin operations
  src/runtime/*.rs   - the runtime capability contracts and dummy backends

Modelling conventions:
- Rust u32 and u64 values are Nat with explicit reductions mod 2^32 or 2^64
  where overflow matters; f32 fields that are only defaulted and hashed
  (temperature, top_p) are represented by their IEEE-754 bit patterns as Nat
  (1.0f32 has pattern 0x3F800000), so to_le_bytes is the little-endian byte
  list of the pattern.
- HashMap registries are association lists with first-match lookup; keys are
  unique, insert overwrites, remove filters the key out.
- Channels are shallow: the presence of a response or stream sender is a Bool;
  what the worker would send on them is returned as data (a frame list and an
  optional reply).  A chunk frame stands for the serde_json serialization of
  the chunk sent as one SSE data frame.
- Fresh UUIDs and unix timestamps are parameters (id, created).
- External crates used by the source (sha2, base64, governor) are modelled by
  executable Lean functions implementing their documented behavior.
-/

namespace LlmServing

/-! ## Data model (src/api/dto.rs) -/

structure ImageUrl where
  url : String
  detail : Option String
deriving DecidableEq

inductive ContentPart where
  | Text (text : String)
  | ImageUrl (image_url : ImageUrl)
deriving DecidableEq

inductive ChatMessageContent where
  | Text (content : String)
  | Parts (parts : List ContentPart)
deriving DecidableEq

structure ChatCompletionMessage where
  role : String
  content : ChatMessageContent
deriving DecidableEq

structure ChatCompletionRequest where
  model : String
  messages : List ChatCompletionMessage
  stream : Option Bool
  max_tokens : Option Nat
  /-- IEEE-754 bit pattern of the optional f32 temperature field. -/
  temperature : Option Nat
  /-- IEEE-754 bit pattern of the optional f32 top_p field. -/
  top_p : Option Nat
deriving DecidableEq

structure ResponseMessage where
  role : String
  content : String
deriving DecidableEq

structure ChatCompletionChoice where
  index : Nat
  message : ResponseMessage
  finish_reason : String
deriving DecidableEq

structure Usage where
  prompt_tokens : Nat
  completion_tokens : Nat
  total_tokens : Nat
deriving DecidableEq

structure ChatCompletionResponse where
  id : String
  object : String
  created : Nat
  model : String
  choices : List ChatCompletionChoice
  usage : Usage
deriving DecidableEq

structure Delta where
  role : Option String
  content : Option String
deriving DecidableEq

structure ChatCompletionChunkChoice where
  index : Nat
  delta : Delta
  finish_reason : Option String
deriving DecidableEq

structure ChatCompletionChunk where
  id : String
  object : String
  created : Nat
  model : String
  choices : List ChatCompletionChunkChoice
deriving DecidableEq

structure EmbeddingsRequest where
  model : String
  input : List String
deriving DecidableEq

structure EmbeddingObject where
  object : String
  index : Nat
  embedding : List Float

structure EmbeddingUsage where
  prompt_tokens : Nat
  total_tokens : Nat
deriving DecidableEq

structure EmbeddingsResponse where
  data : List EmbeddingObject
  model : String
  object : String
  usage : EmbeddingUsage

/-- serde default for ImagesGenerationRequest.n (dto.rs default_n). -/
def default_n : Nat := 1

/-- serde default for ImagesGenerationRequest.size (dto.rs default_size). -/
def default_size : String := "512x512"

/-- serde default for ImagesGenerationRequest.response_format
(dto.rs default_response_format). -/
def default_response_format : String := "b64_json"

structure ImagesGenerationRequest where
  model : String
  prompt : String
  n : Nat
  size : String
  response_format : String
deriving DecidableEq

structure ImageDataObject where
  b64_json : Option String
  url : Option String
  revised_prompt : Option String
deriving DecidableEq

structure ImagesGenerationResponse where
  created : Nat
  data : List ImageDataObject
deriving DecidableEq

structure LoadModelRequest where
  model : String
  kind : String
  path : Option String
deriving DecidableEq

structure UnloadModelRequest where
  model : String
  kind : String
deriving DecidableEq

structure ModelsListResponse where
  llm : List String
  embedding : List String
  multimodal : List String
  image : List String
deriving DecidableEq

/-! ## Errors (src/api/error.rs) -/

inductive AppError where
  | InternalServerError (msg : String)
  | BadRequest (msg : String)
  | NotFound (msg : String)
deriving DecidableEq

/-- HTTP status produced by the IntoResponse impl for AppError. -/
def AppError.status : AppError → Nat
  | .InternalServerError _ => 500
  | .BadRequest _ => 400
  | .NotFound _ => 404

/-- The From String impl for AppError (error.rs), used by the question-mark
operator in the chat handler. -/
def appErrorOfString (e : String) : AppError := .InternalServerError e

/-! ## Runtime capability contracts (src/runtime/mod.rs) -/

structure GenerationOptions where
  max_tokens : Nat
  /-- IEEE-754 bit pattern of the f32 temperature. -/
  temperature : Nat
  /-- IEEE-754 bit pattern of the f32 top_p. -/
  top_p : Nat
deriving DecidableEq

/-- Bit pattern of 1.0f32, the default for temperature and top_p. -/
def f32OnePattern : Nat := 0x3F800000

/-- GenerationOptions::from_request (runtime/mod.rs). -/
def GenerationOptions.from_request (max_tokens : Option Nat) (temperature : Option Nat)
    (top_p : Option Nat) : GenerationOptions :=
  { max_tokens := max_tokens.getD 100
    temperature := temperature.getD f32OnePattern
    top_p := top_p.getD f32OnePattern }

structure LlmRuntime where
  generate : String → GenerationOptions → Except String String

structure MultimodalRuntime where
  generate_from_vision : String → List String → GenerationOptions → Except String String

structure EmbeddingRuntime where
  embed : List String → Except String (List (List Float))

structure ImageGenRuntime where
  generate_images : String → Nat → String → Except String (List (List Nat))

/-! ## Dummy backends (src/runtime/dummy.rs, dummy_embedding.rs, dummy_image.rs) -/

/-- First n characters of a string, as Rust chars().take(n).collect(). -/
def takeChars (s : String) (n : Nat) : String := ⟨s.data.take n⟩

/-- The LlmRuntime impl of DummyRuntime (dummy.rs): the prompt is truncated
to max_tokens characters and prefixed with "Echo: ". -/
def dummyRuntimeLlm : LlmRuntime :=
  { generate := fun prompt options =>
      .ok ("Echo: " ++ takeChars prompt options.max_tokens) }

/-- The MultimodalRuntime impl of DummyRuntime (dummy.rs): the whole response,
image-count suffix included, is truncated to max_tokens characters. -/
def dummyRuntimeMultimodal : MultimodalRuntime :=
  { generate_from_vision := fun text image_urls options =>
      let response := "Echo(Vision): " ++ text
      let response :=
        if image_urls.isEmpty then response
        else response ++ " | images=" ++ toString image_urls.length
      .ok (takeChars response options.max_tokens) }

/-- 64-bit rotate left, as u64::rotate_left. -/
def rotl64 (x n : Nat) : Nat :=
  (((x * 2 ^ n) % 2 ^ 64) ||| (x / 2 ^ (64 - n))) % 2 ^ 64

/-- UTF-8 bytes of a string, as Rust str::as_bytes. -/
def strBytes (s : String) : List Nat := s.toUTF8.toList.map (fun b => b.toNat)

/-- DummyEmbeddingRuntime (dummy_embedding.rs): FNV-1a hash of the input
bytes, a deterministic fill from rotations of the hash, then L2
normalization.  The source computes in f32; Float is used here. -/
def dummyEmbeddingRuntime (dimension : Nat) : EmbeddingRuntime :=
  { embed := fun inputs =>
      .ok (inputs.map (fun text =>
        let hash := (strBytes text).foldl
          (fun (h : Nat) b => ((h ^^^ b) * 1099511628211) % 2 ^ 64)
          1469598103934665603
        let vec := (List.range dimension).map
          (fun i => Float.ofNat ((rotl64 hash (i % 64)) % 1000) / 1000.0)
        let norm := Float.sqrt (vec.foldl (fun acc x => acc + x * x) 0.0)
        if norm > 0.0 then vec.map (fun v => v / norm) else vec)) }

/-- DummyImageRuntime (dummy_image.rs): n copies of a placeholder byte
payload tagged with the requested size. -/
def dummyImageRuntime : ImageGenRuntime :=
  { generate_images := fun _prompt n size =>
      .ok (List.replicate n (strBytes ("DUMMY_PNG:" ++ size ++ ":"))) }

/-! ## Registries (src/engine/mod.rs CoreEngine fields and new) -/

/-- HashMap::get on an association-list registry. -/
def lookupReg {α : Type} : List (String × α) → String → Option α
  | [], _ => none
  | (k, v) :: rest, name => if k == name then some v else lookupReg rest name

/-- HashMap::remove on an association-list registry. -/
def removeReg {α : Type} (reg : List (String × α)) (name : String) : List (String × α) :=
  reg.filter (fun kv => kv.1 != name)

structure RegistryState where
  llm : List (String × LlmRuntime)
  embedding : List (String × EmbeddingRuntime)
  multimodal : List (String × MultimodalRuntime)
  image : List (String × ImageGenRuntime)

/-- The registries populated by CoreEngine::new with no optional provider
features enabled (the llama, onnx and llava cfg blocks are inactive in the
default build, and their env-driven seeds are absent). -/
def initial_registries : RegistryState :=
  { llm := [("dummy-model", dummyRuntimeLlm)]
    embedding := [("dummy-embedding", dummyEmbeddingRuntime 384)]
    multimodal := [("dummy-model", dummyRuntimeMultimodal)]
    image := [("dummy-image", dummyImageRuntime)] }

/-- CoreEngine::list_models: the four registry name lists, in the order
llm, embedding, multimodal, image. -/
def list_models (st : RegistryState) :
    List String × List String × List String × List String :=
  (st.llm.map Prod.fst, st.embedding.map Prod.fst,
   st.multimodal.map Prod.fst, st.image.map Prod.fst)

/-- CoreEngine::unload_model: the Rust match on kind is an equality chain
over the three accepted kind strings; any other kind is an error. -/
def unload_model (st : RegistryState) (kind name : String) : Except String RegistryState :=
  if kind = "llm" then .ok { st with llm := removeReg st.llm name }
  else if kind = "embedding" then .ok { st with embedding := removeReg st.embedding name }
  else if kind = "multimodal" then .ok { st with multimodal := removeReg st.multimodal name }
  else .error "unknown kind"

/-! ## Chat dispatcher (src/engine/mod.rs CoreEngine::worker_pool,
EngineRequest::ChatCompletion arm) -/

/-- One step of the prompt-and-image-URL accumulation loop over content
parts (worker_pool, lines 167-172). -/
def extract_part_step (acc : String × List String) (p : ContentPart) : String × List String :=
  match p with
  | .Text text => (acc.1 ++ text, acc.2)
  | .ImageUrl image_url => (acc.1, acc.2 ++ [image_url.url])

/-- Prompt and image-URL extraction from the last message
(worker_pool, lines 162-176). -/
def extract_prompt (messages : List ChatCompletionMessage) : String × List String :=
  match messages.getLast? with
  | some m =>
    match m.content with
    | .Text content => (content, [])
    | .Parts parts => parts.foldl extract_part_step ("", [])
  | none => ("", [])

/-- The generation expression of the streaming branch
(worker_pool, lines 198-213, before unwrap_or_else). -/
def stream_gen_result (llm_runtime_opt : Option LlmRuntime)
    (mm_runtime_opt : Option MultimodalRuntime) (prompt : String)
    (image_urls : List String) (gen_opts : GenerationOptions) : Except String String :=
  if image_urls.isEmpty then
    match llm_runtime_opt with
    | some llm_rt => llm_rt.generate prompt gen_opts
    | none => .error "Model requires images"
  else
    match mm_runtime_opt with
    | some mm_rt => mm_rt.generate_from_vision prompt image_urls gen_opts
    | none =>
      match llm_runtime_opt with
      | some llm_rt => llm_rt.generate prompt gen_opts
      | none => .error "Model not available"

/-- The unwrap_or_else closure of the streaming branch: a backend error is
formatted into the content text. -/
def format_stream_text : Except String String → String
  | .ok s => s
  | .error e => "[error: " ++ e ++ "]"

/-- Result::unwrap_or_default on a string result. -/
def unwrap_or_default : Except String String → String
  | .ok s => s
  | .error _ => ""

/-- The generation expression of the buffered branch
(worker_pool, lines 248-262): each backend call is unwrap_or_default-ed. -/
def buffered_generated (llm_runtime_opt : Option LlmRuntime)
    (mm_runtime_opt : Option MultimodalRuntime) (prompt : String)
    (image_urls : List String) (gen_opts : GenerationOptions) : String :=
  if image_urls.isEmpty then
    match llm_runtime_opt with
    | some llm_rt => unwrap_or_default (llm_rt.generate prompt gen_opts)
    | none => "[error: Model requires images]"
  else
    match mm_runtime_opt with
    | some mm_rt => unwrap_or_default (mm_rt.generate_from_vision prompt image_urls gen_opts)
    | none =>
      match llm_runtime_opt with
      | some llm_rt => unwrap_or_default (llm_rt.generate prompt gen_opts)
      | none => "[error: Model not available]"

/-- The role chunk built by the streaming branch (worker_pool lines
184-194): delta carries only the assistant role, finish_reason is null. -/
def role_chunk_of (id : String) (created : Nat) (model_name : String) : ChatCompletionChunk :=
  { id := id
    object := "chat.completion.chunk"
    created := created
    model := model_name
    choices := [{ index := 0
                  delta := { role := some "assistant", content := none }
                  finish_reason := none }] }

/-- The content chunk built by the streaming branch (worker_pool lines
214-224): delta carries only the generated content, finish_reason is null. -/
def content_chunk_of (id : String) (created : Nat) (model_name generated : String) :
    ChatCompletionChunk :=
  { id := id
    object := "chat.completion.chunk"
    created := created
    model := model_name
    choices := [{ index := 0
                  delta := { role := none, content := some generated }
                  finish_reason := none }] }

/-- The done chunk built by the streaming branch (worker_pool lines
227-237): empty delta, finish_reason stop. -/
def done_chunk_of (id : String) (created : Nat) (model_name : String) : ChatCompletionChunk :=
  { id := id
    object := "chat.completion.chunk"
    created := created
    model := model_name
    choices := [{ index := 0
                  delta := { role := none, content := none }
                  finish_reason := some "stop" }] }

/-- The buffered response object (worker_pool lines 263-278). -/
def buffered_response_of (id : String) (created : Nat) (model_name generated : String) :
    ChatCompletionResponse :=
  { id := id
    object := "chat.completion"
    created := created
    model := model_name
    choices := [{ index := 0
                  message := { role := "assistant", content := generated }
                  finish_reason := "stop" }]
    usage := { prompt_tokens := 0, completion_tokens := 0, total_tokens := 0 } }

/-- A frame sent on the stream channel: either a chunk (sent as its
serde_json serialization) or a raw string. -/
inductive StreamFrame where
  | chunk (c : ChatCompletionChunk)
  | raw (s : String)
deriving DecidableEq

/-- What a worker emits for one chat envelope: the frames sent on the
stream channel and the reply sent on the response channel. -/
structure WorkerChatOutput where
  frames : List StreamFrame
  reply : Option (Except String ChatCompletionResponse)

/-- The ChatCompletion arm of CoreEngine::worker_pool (engine/mod.rs lines
152-288).  The two Bools model the presence of the optional response and
stream senders of the envelope; id and created model the fresh UUID and the
unix timestamp taken inside the branch that runs. -/
def worker_pool_chat (llm : List (String × LlmRuntime))
    (mm : List (String × MultimodalRuntime)) (request : ChatCompletionRequest)
    (has_response_sender has_stream_sender : Bool)
    (id : String) (created : Nat) : WorkerChatOutput :=
  let model_name := request.model
  let llm_runtime_opt := lookupReg llm model_name
  let mm_runtime_opt := lookupReg mm model_name
  if llm_runtime_opt.isSome || mm_runtime_opt.isSome then
    let pe := extract_prompt request.messages
    let gen_opts := GenerationOptions.from_request request.max_tokens
      request.temperature request.top_p
    if has_stream_sender then
      let generated := format_stream_text
        (stream_gen_result llm_runtime_opt mm_runtime_opt pe.1 pe.2 gen_opts)
      { frames := [.chunk (role_chunk_of id created model_name),
                   .chunk (content_chunk_of id created model_name generated),
                   .chunk (done_chunk_of id created model_name),
                   .raw "[DONE]"]
        reply := none }
    else if has_response_sender then
      let generated := buffered_generated llm_runtime_opt mm_runtime_opt pe.1 pe.2 gen_opts
      { frames := [], reply := some (.ok (buffered_response_of id created model_name generated)) }
    else { frames := [], reply := none }
  else if has_response_sender then
    { frames := [], reply := some (.error ("Model " ++ model_name ++ " not found")) }
  else
    { frames := [], reply := none }

/-- The Embeddings arm of CoreEngine::worker_pool (lines 290-326), up to
the reply sent on the response channel. -/
def worker_pool_embeddings (embed_map : List (String × EmbeddingRuntime))
    (request : EmbeddingsRequest) : Except String EmbeddingsResponse :=
  match lookupReg embed_map request.model with
  | some runtime =>
    match runtime.embed request.input with
    | .ok vectors =>
      .ok { data := (vectors.enum.map (fun iv =>
              { object := "embedding", index := iv.1, embedding := iv.2 }))
            model := request.model
            object := "list"
            usage := { prompt_tokens := 0, total_tokens := 0 } }
    | .error e => .error e
  | none => .error ("Model " ++ request.model ++ " not found")

/-- The Images arm of CoreEngine::worker_pool (lines 327-348), up to the
reply sent on the response channel. -/
def worker_pool_images (img_map : List (String × ImageGenRuntime))
    (request : ImagesGenerationRequest) : Except String (List (List Nat)) :=
  match lookupReg img_map request.model with
  | some runtime => runtime.generate_images request.prompt request.n request.size
  | none => .error ("Model " ++ request.model ++ " not found")

/-! ## SHA-256 (model of the sha2 crate used by CoreEngine::hash_chat_request)

A faithful executable FIPS 180-4 SHA-256 over byte lists, with 32-bit words
as Nat reduced mod 2^32. -/

def M32 : Nat := 4294967296

/-- 32-bit rotate right. -/
def rotr32 (n x : Nat) : Nat :=
  ((x / 2 ^ n) ||| ((x % 2 ^ n) * 2 ^ (32 - n))) % M32

def sum_large0 (x : Nat) : Nat := rotr32 2 x ^^^ rotr32 13 x ^^^ rotr32 22 x
def sum_large1 (x : Nat) : Nat := rotr32 6 x ^^^ rotr32 11 x ^^^ rotr32 25 x
def sum_small0 (x : Nat) : Nat := rotr32 7 x ^^^ rotr32 18 x ^^^ (x / 2 ^ 3)
def sum_small1 (x : Nat) : Nat := rotr32 17 x ^^^ rotr32 19 x ^^^ (x / 2 ^ 10)

/-- The 64 round constants of FIPS 180-4, in decimal. -/
def sha256_k : List Nat :=
  [1116352408, 1899447441, 3049323471, 3921009573, 961987163,
   1508970993, 2453635748, 2870763221, 3624381080, 310598401,
   607225278, 1426881987, 1925078388, 2162078206, 2614888103,
   3248222580, 3835390401, 4022224774, 264347078, 604807628,
   770255983, 1249150122, 1555081692, 1996064986, 2554220882,
   2821834349, 2952996808, 3210313671, 3336571891, 3584528711,
   113926993, 338241895, 666307205, 773529912, 1294757372,
   1396182291, 1695183700, 1986661051, 2177026350, 2456956037,
   2730485921, 2820302411, 3259730800, 3345764771, 3516065817,
   3600352804, 4094571909, 275423344, 430227734, 506948616,
   659060556, 883997877, 958139571, 1322822218, 1537002063,
   1747873779, 1955562222, 2024104815, 2227730452, 2361852424,
   2428436474, 2756734187, 3204031479, 3329325298]

/-- The eight initial hash words of FIPS 180-4, in decimal. -/
def sha256_h0 : List Nat :=
  [1779033703, 3144134277, 1013904242, 2773480762,
   1359893119, 2600822924, 528734635, 1541459225]

/-- Big-endian 8-byte encoding of a 64-bit length. -/
def u64be (n : Nat) : List Nat :=
  [n / 2 ^ 56 % 256, n / 2 ^ 48 % 256, n / 2 ^ 40 % 256, n / 2 ^ 32 % 256,
   n / 2 ^ 24 % 256, n / 2 ^ 16 % 256, n / 2 ^ 8 % 256, n % 256]

/-- Big-endian 4-byte encoding of a 32-bit word. -/
def u32be (n : Nat) : List Nat :=
  [n / 2 ^ 24 % 256, n / 2 ^ 16 % 256, n / 2 ^ 8 % 256, n % 256]

/-- SHA-256 padding: 0x80, zeros to 56 mod 64, then the bit length. -/
def sha256_pad (msg : List Nat) : List Nat :=
  let len := msg.length
  let zeros := (64 - ((len + 9) % 64)) % 64
  msg ++ [0x80] ++ List.replicate zeros 0 ++ u64be ((8 * len) % 2 ^ 64)

/-- Split a padded message into 64-byte blocks. -/
def chunks64 (l : List Nat) : List (List Nat) :=
  if h : l = [] then []
  else l.take 64 :: chunks64 (l.drop 64)
termination_by l.length
decreasing_by
  simp only [List.length_drop]
  have hp : 0 < l.length := List.length_pos.mpr h
  omega

/-- The 16 initial 32-bit words of a block, big-endian. -/
def words16 (block : List Nat) : List Nat :=
  (List.range 16).map (fun i =>
    block.getD (4 * i) 0 * 2 ^ 24 + block.getD (4 * i + 1) 0 * 2 ^ 16 +
    block.getD (4 * i + 2) 0 * 2 ^ 8 + block.getD (4 * i + 3) 0)

/-- Message-schedule extension from 16 to 64 words. -/
def sha256_extend (w : List Nat) : List Nat :=
  (List.range 48).foldl (fun w _ =>
    let n := w.length
    let x := (sum_small1 (w.getD (n - 2) 0) + w.getD (n - 7) 0 +
              sum_small0 (w.getD (n - 15) 0) + w.getD (n - 16) 0) % M32
    w ++ [x]) w

/-- One SHA-256 compression round over the eight-word state. -/
def sha256_round (w : List Nat) (st : List Nat) (i : Nat) : List Nat :=
  match st with
  | [a, b, c, d, e, f, g, hh] =>
    let s1 := sum_large1 e
    let ch := ((e &&& f) ^^^ ((e ^^^ (M32 - 1)) &&& g)) % M32
    let temp1 := (hh + s1 + ch + sha256_k.getD i 0 + w.getD i 0) % M32
    let s0 := sum_large0 a
    let maj := (a &&& b) ^^^ (a &&& c) ^^^ (b &&& c)
    let temp2 := (s0 + maj) % M32
    [(temp1 + temp2) % M32, a, b, c, (d + temp1) % M32, e, f, g]
  | _ => st

/-- Compression of one 64-byte block into the running hash state. -/
def sha256_compress (h : List Nat) (block : List Nat) : List Nat :=
  let w := sha256_extend (words16 block)
  let st := (List.range 64).foldl (sha256_round w) h
  (h.zip st).map (fun p => (p.1 + p.2) % M32)

/-- SHA-256 digest of a byte list, as 32 bytes. -/
def sha256 (msg : List Nat) : List Nat :=
  let finalH := (chunks64 (sha256_pad msg)).foldl sha256_compress sha256_h0
  finalH.foldr (fun word acc => u32be word ++ acc) []

def hex_digit (n : Nat) : Char := "0123456789abcdef".data.getD n '0'

/-- Lowercase hex of a byte list, two digits per byte: the format of the
LowerHex rendering used by format with the x specifier in
hash_chat_request. -/
def bytes_to_hex (bs : List Nat) : String :=
  ⟨bs.foldr (fun b acc => hex_digit (b / 16) :: hex_digit (b % 16) :: acc) []⟩

/-! ## Chat request fingerprint (CoreEngine::hash_chat_request, lines 403-424) -/

/-- Little-endian 4-byte encoding, as u32::to_le_bytes and f32::to_le_bytes
on the bit pattern. -/
def u32le (n : Nat) : List Nat :=
  [n % 256, n / 2 ^ 8 % 256, n / 2 ^ 16 % 256, n / 2 ^ 24 % 256]

/-- The hasher.update byte stream of one message content. -/
def content_bytes : ChatMessageContent → List Nat
  | .Text content => strBytes content
  | .Parts parts => parts.foldl (fun acc p =>
      match p with
      | .Text text => acc ++ strBytes text
      | .ImageUrl image_url => acc ++ strBytes image_url.url) []

/-- The full hasher.update byte stream of hash_chat_request: model bytes,
then per message the role and content bytes, then the little-endian
encodings of max_tokens, temperature and top_p when present. -/
def chat_request_bytes (req : ChatCompletionRequest) : List Nat :=
  strBytes req.model ++
  (req.messages.foldl (fun acc m => acc ++ strBytes m.role ++ content_bytes m.content) []) ++
  (match req.max_tokens with | some mt => u32le mt | none => []) ++
  (match req.temperature with | some t => u32le t | none => []) ++
  (match req.top_p with | some tp => u32le tp | none => [])

/-- CoreEngine::hash_chat_request: lowercase hex of the SHA-256 digest. -/
def hash_chat_request (req : ChatCompletionRequest) : String :=
  bytes_to_hex (sha256 (chat_request_bytes req))

/-! ## Response cache and the chat facade
(CoreEngine::process_chat_request, lines 356-401) -/

/-- moka Cache::insert: overwrites any entry under the same key. -/
def cacheInsert (cache : List (String × ChatCompletionResponse)) (key : String)
    (v : ChatCompletionResponse) : List (String × ChatCompletionResponse) :=
  (key, v) :: cache.filter (fun kv => kv.1 != key)

/-- Everything observable about one call to process_chat_request: the value
returned to the HTTP handler, the cache after the call, whether an envelope
was enqueued, and the cache_key local (the fingerprint, when computed). -/
structure ProcessChatResult where
  result : Except String ChatCompletionResponse
  cache : List (String × ChatCompletionResponse)
  enqueued : Bool
  fingerprint : Option String

/-- CoreEngine::process_chat_request.  has_stream_sender is
stream_sender.is_some(); worker_reply is the value the worker eventually
sends on the single-shot response channel (none models a closed channel).
The enqueue itself is assumed to succeed; TTL expiry of cache entries is
outside this per-call model. -/
def process_chat_request (cache : List (String × ChatCompletionResponse))
    (request : ChatCompletionRequest) (has_stream_sender : Bool)
    (worker_reply : Option (Except String ChatCompletionResponse)) : ProcessChatResult :=
  let cache_key := if !has_stream_sender then some (hash_chat_request request) else none
  match cache_key with
  | some key =>
    match lookupReg cache key with
    | some resp =>
      { result := .ok resp, cache := cache, enqueued := false, fingerprint := some key }
    | none =>
      match worker_reply with
      | none =>
        { result := .error "Engine response channel closed", cache := cache,
          enqueued := true, fingerprint := some key }
      | some result =>
        let cache2 := match result with
          | .ok resp => cacheInsert cache key resp
          | .error _ => cache
        { result := result, cache := cache2, enqueued := true, fingerprint := some key }
  | none =>
    { result := .error "Streaming response handled via sender", cache := cache,
      enqueued := true, fingerprint := none }

/-! ## Auth and rate-limit gate (src/api/auth.rs) -/

/-- ASCII whitespace test used by trimming (Rust char::is_whitespace on the
ASCII range relevant to header and key material). -/
def is_ws (c : Char) : Bool := c = ' ' || c = '\t' || c = '\n' || c = '\r'

/-- Rust str::trim on the characters of a string. -/
def trim_str (s : String) : String :=
  ⟨((s.data.dropWhile is_ws).reverse.dropWhile is_ws).reverse⟩

/-- Rust str::split on a comma: the list of fragments between commas,
including empty fragments (split of the empty string is one empty
fragment). -/
def split_commas (s : String) : List String :=
  (s.data.foldr
    (fun c acc =>
      match acc with
      | cur :: done => if c = ',' then [] :: cur :: done else (c :: cur) :: done
      | [] => [[c]])
    [[]]).map (fun l => (⟨l⟩ : String))

/-- The key list computed by authorize_request (auth.rs lines 15-20):
split on commas, drop fragments that trim to empty, trim the rest. -/
def parse_api_keys (keys_env : String) : List String :=
  ((split_commas keys_env).filter (fun s => !(trim_str s).data.isEmpty)).map trim_str

/-- str::strip_prefix with the literal "Bearer " (auth.rs line 28). -/
def strip_bearer (h : String) : Option String :=
  match h.data with
  | 'B' :: 'e' :: 'a' :: 'r' :: 'e' :: 'r' :: ' ' :: rest => some (⟨rest⟩ : String)
  | _ => none

/-- State of the keyed rate limiter.  Modelled from the spec: the governor
keyed token bucket behind RATE_LIMITER in auth.rs, Quota::per_minute(60),
is an external crate; it is modelled as the per-token count of requests
already admitted inside the current one-minute window. -/
structure RateLimiterState where
  used : List (String × Nat)

/-- Per-minute quota of the limiter (auth.rs line 9). -/
def rate_limit_quota : Nat := 60

/-- RateLimiter::check_key: admits and consumes while the token is under
quota in the window; a failed check consumes nothing. -/
def rate_limit_check (rl : RateLimiterState) (token : String) : Bool × RateLimiterState :=
  let used := (lookupReg rl.used token).getD 0
  if used < rate_limit_quota then
    (true, ⟨(token, used + 1) :: rl.used.filter (fun kv => kv.1 != token)⟩)
  else
    (false, rl)

/-- authorize_request (auth.rs lines 13-39).  keys_env is the API_KEYS
environment value (absent reads as the empty string); auth_header is the
authorization header when present and readable. -/
def authorize_request (keys_env : String) (auth_header : Option String)
    (rl : RateLimiterState) : Except String Unit × RateLimiterState :=
  let keys := parse_api_keys keys_env
  if keys.isEmpty then (.ok (), rl)
  else
    match strip_bearer (auth_header.getD "") with
    | some token =>
      if keys.contains token then
        let checked := rate_limit_check rl token
        if checked.1 then (.ok (), checked.2)
        else (.error "Rate limit exceeded", checked.2)
      else (.error "Unauthorized", rl)
    | none => (.error "Unauthorized", rl)

/-! ## Base64 (model of the base64 crate STANDARD engine used in routes.rs) -/

def base64_alphabet : List Char :=
  "ABCDEFGHIJKLMNOPQRSTUVWXYZabcdefghijklmnopqrstuvwxyz0123456789+/".data

def base64_char (n : Nat) : Char := base64_alphabet.getD n 'A'

/-- RFC 4648 standard base64 with padding, three input bytes at a time. -/
def base64_encode : List Nat → String
  | [] => ""
  | [a] =>
    ⟨[base64_char (a / 4), base64_char (a % 4 * 16), '=', '=']⟩
  | [a, b] =>
    ⟨[base64_char (a / 4), base64_char (a % 4 * 16 + b / 16),
      base64_char (b % 16 * 4), '=']⟩
  | a :: b :: c :: rest =>
    (⟨[base64_char (a / 4), base64_char (a % 4 * 16 + b / 16),
       base64_char (b % 16 * 4 + c / 64), base64_char (c % 64)]⟩ : String) ++
    base64_encode rest

/-! ## HTTP handlers (src/api/routes.rs) -/

/-- The buffered branch of the chat_completions handler (routes.rs lines
41-45): the engine result is returned, a string error being converted by
the question-mark operator through the From String impl for AppError. -/
def chat_completions_buffered (engine_result : Except String ChatCompletionResponse) :
    Except AppError ChatCompletionResponse :=
  match engine_result with
  | .ok response => .ok response
  | .error e => .error (appErrorOfString e)

/-- The images_generations handler (routes.rs lines 60-80) after the gate:
each returned byte array is base64-encoded into a b64_json field, the url
and revised_prompt fields stay empty, and an engine error is a BadRequest.
The request itself is never consulted past the engine call. -/
def images_generations (request : ImagesGenerationRequest)
    (engine_result : Except String (List (List Nat))) (created : Nat) :
    Except AppError ImagesGenerationResponse :=
  match engine_result with
  | .ok images =>
    .ok { created := created
          data := images.map (fun bytes =>
            { b64_json := some (base64_encode bytes)
              url := none
              revised_prompt := none }) }
  | .error e => .error (.BadRequest e)

/-! ## Spec-side descriptions of prompt extraction

These two definitions follow the words of the spec (section 4.5): the prompt
is the in-order concatenation of all text parts, the image URLs are the list
of URLs in order.  They are compared with the source-derived extract_prompt. -/

/-- Spec words: concatenation of all text parts in order. -/
def spec_text_of_parts : List ContentPart → String
  | [] => ""
  | .Text text :: rest => text ++ spec_text_of_parts rest
  | .ImageUrl _ :: rest => spec_text_of_parts rest

/-- Spec words: the list of image URLs in order. -/
def spec_urls_of_parts (parts : List ContentPart) : List String :=
  parts.filterMap (fun p => match p with
    | .Text _ => none
    | .ImageUrl image_url => some image_url.url)

/-- The accumulation loop over parts computes the spec-side concatenation
and URL list, for any starting accumulator. -/
theorem extract_part_fold : ∀ (parts : List ContentPart) (acc : String × List String),
    parts.foldl extract_part_step acc =
      (acc.1 ++ spec_text_of_parts parts, acc.2 ++ spec_urls_of_parts parts)
  | [], acc => by
    simp [spec_text_of_parts, spec_urls_of_parts]
  | .Text t :: rest, acc => by
    simp only [List.foldl_cons, extract_part_step, extract_part_fold rest,
      spec_text_of_parts, spec_urls_of_parts, List.filterMap_cons, String.append_assoc]
  | .ImageUrl iu :: rest, acc => by
    simp only [List.foldl_cons, extract_part_step, extract_part_fold rest,
      spec_text_of_parts, spec_urls_of_parts, List.filterMap_cons, List.append_assoc,
      List.singleton_append]

/-- C8: the prompt and image-URL list come from the last message only: an
empty message list yields empty prompt and URLs, a terminal text content is
the prompt with no URLs, terminal parts give the in-order text concatenation
and URL list, and the messages before the last never influence the result. -/
theorem extract_prompt_last_message_only (ms : List ChatCompletionMessage)
    (m : ChatCompletionMessage) (role text : String) (parts : List ContentPart) :
    extract_prompt [] = ("", []) ∧
    extract_prompt (ms ++ [m]) = extract_prompt [m] ∧
    extract_prompt (ms ++ [{ role := role, content := .Text text }]) = (text, []) ∧
    extract_prompt (ms ++ [{ role := role, content := .Parts parts }]) =
      (spec_text_of_parts parts, spec_urls_of_parts parts) := by
  have hlast : ∀ (m2 : ChatCompletionMessage),
      extract_prompt (ms ++ [m2]) = extract_prompt [m2] := by
    intro m2
    simp only [extract_prompt, List.getLast?_concat]
    rfl
  refine ⟨rfl, hlast m, ?_, ?_⟩
  · rw [hlast]
    rfl
  · rw [hlast]
    show parts.foldl extract_part_step ("", []) = _
    rw [extract_part_fold]
    simp [String.empty_append]

/-- The generation expression of the streaming branch applied to the
lookups, extraction and option defaulting of a request; abbreviation used
by the statements below. -/
def request_stream_gen (llm : List (String × LlmRuntime))
    (mm : List (String × MultimodalRuntime)) (request : ChatCompletionRequest) :
    Except String String :=
  stream_gen_result (lookupReg llm request.model) (lookupReg mm request.model)
    (extract_prompt request.messages).1 (extract_prompt request.messages).2
    (GenerationOptions.from_request request.max_tokens request.temperature request.top_p)

/-- C4: for a streaming chat envelope whose model resolves in at least one
of the llm and multimodal registries, the worker emits exactly four frames,
in order: a role chunk, a content chunk carrying the generation result, a
done chunk with finish_reason stop, and the raw sentinel [DONE]; the three
chunks share the same id and the same created value; and a failed
generation puts the text [error: message] into the content chunk while the
done chunk and the sentinel are still emitted after it. -/
theorem worker_streaming_four_frames (llm : List (String × LlmRuntime))
    (mm : List (String × MultimodalRuntime)) (request : ChatCompletionRequest)
    (id : String) (created : Nat)
    (hfound : (lookupReg llm request.model).isSome = true ∨
      (lookupReg mm request.model).isSome = true) :
    (worker_pool_chat llm mm request false true id created).frames =
      [.chunk (role_chunk_of id created request.model),
       .chunk (content_chunk_of id created request.model
         (format_stream_text (request_stream_gen llm mm request))),
       .chunk (done_chunk_of id created request.model),
       .raw "[DONE]"] ∧
    (∀ e : String, request_stream_gen llm mm request = .error e →
      format_stream_text (request_stream_gen llm mm request) = "[error: " ++ e ++ "]") := by
  have hcond : ((lookupReg llm request.model).isSome ||
      (lookupReg mm request.model).isSome) = true := by
    rcases hfound with h | h <;> simp [h]
  constructor
  · simp only [worker_pool_chat, hcond, if_true, request_stream_gen]
  · intro e he
    rw [he]
    rfl

/-- Witness for C4: a streaming request for the dummy model of the initial
registries produces the four frames with the echoed content. -/
theorem worker_streaming_four_frames_witness :
    (worker_pool_chat initial_registries.llm initial_registries.multimodal
      { model := "dummy-model",
        messages := [{ role := "user", content := .Text "stream please" }],
        stream := some true, max_tokens := none, temperature := none, top_p := none }
      false true "uuid-w4" 1700000000).frames =
      [.chunk (role_chunk_of "uuid-w4" 1700000000 "dummy-model"),
       .chunk (content_chunk_of "uuid-w4" 1700000000 "dummy-model" "Echo: stream please"),
       .chunk (done_chunk_of "uuid-w4" 1700000000 "dummy-model"),
       .raw "[DONE]"] := by
  have h := worker_streaming_four_frames initial_registries.llm
    initial_registries.multimodal
    { model := "dummy-model",
      messages := [{ role := "user", content := .Text "stream please" }],
      stream := some true, max_tokens := none, temperature := none, top_p := none }
    "uuid-w4" 1700000000 (Or.inl rfl)
  rw [h.1]
  rfl

/-- A buffered chat request without images for a model that is present only
in the multimodal registry. -/
def mm_only_request : ChatCompletionRequest :=
  { model := "mm-only"
    messages := [{ role := "user", content := .Text "hi" }]
    stream := some false
    max_tokens := none
    temperature := none
    top_p := none }

/-- A registry pair where mm-only lives only in the multimodal registry. -/
def mm_only_registry : List (String × MultimodalRuntime) :=
  [("mm-only", dummyRuntimeMultimodal)]

/-- Counterexample to C1: for a buffered chat request with no image URLs
whose model is absent from the llm registry and present in the multimodal
registry, the worker does NOT send an error reply: it sends a successful
chat completion (an Ok reply with finish_reason stop) whose message content
is the literal text [error: Model requires images]. -/
theorem buffered_requires_images_is_ok_reply :
    (worker_pool_chat [] mm_only_registry mm_only_request true false "uuid-c1" 0).reply =
      some (.ok (buffered_response_of "uuid-c1" 0 "mm-only"
        "[error: Model requires images]")) := by
  rfl

/-- C1 as amended: with empty image URLs, model absent from the llm
registry and present in the multimodal registry, the streaming worker
reports the failure per the streaming convention (content chunk
[error: Model requires images], then done chunk and sentinel), while the
buffered worker replies with a successful completion whose message content
is the literal text [error: Model requires images] rather than an error
reply. -/
theorem requires_images_behavior (llm : List (String × LlmRuntime))
    (mm : List (String × MultimodalRuntime)) (request : ChatCompletionRequest)
    (id : String) (created : Nat)
    (hllm : lookupReg llm request.model = none)
    (hmm : (lookupReg mm request.model).isSome = true)
    (hurls : (extract_prompt request.messages).2 = []) :
    (worker_pool_chat llm mm request false true id created).frames =
      [.chunk (role_chunk_of id created request.model),
       .chunk (content_chunk_of id created request.model "[error: Model requires images]"),
       .chunk (done_chunk_of id created request.model),
       .raw "[DONE]"] ∧
    (worker_pool_chat llm mm request true false id created).reply =
      some (.ok (buffered_response_of id created request.model
        "[error: Model requires images]")) := by
  have hcond : ((lookupReg llm request.model).isSome ||
      (lookupReg mm request.model).isSome) = true := by
    simp [hmm]
  constructor
  · simp [worker_pool_chat, hcond, stream_gen_result, hllm, hmm, hurls, format_stream_text]
  · simp [worker_pool_chat, hcond, buffered_generated, hllm, hmm, hurls]

/-- Witness for the amended C1 at the concrete request and registries of
the counterexample. -/
theorem requires_images_behavior_witness :
    (worker_pool_chat [] mm_only_registry mm_only_request false true "uuid-c1w" 5).frames =
      [.chunk (role_chunk_of "uuid-c1w" 5 "mm-only"),
       .chunk (content_chunk_of "uuid-c1w" 5 "mm-only" "[error: Model requires images]"),
       .chunk (done_chunk_of "uuid-c1w" 5 "mm-only"),
       .raw "[DONE]"] ∧
    (worker_pool_chat [] mm_only_registry mm_only_request true false "uuid-c1w" 5).reply =
      some (.ok (buffered_response_of "uuid-c1w" 5 "mm-only"
        "[error: Model requires images]")) :=
  requires_images_behavior [] mm_only_registry mm_only_request "uuid-c1w" 5
    rfl rfl rfl

/-- A streaming chat request for a model present in no registry. -/
def ghost_stream_request : ChatCompletionRequest :=
  { model := "ghost"
    messages := [{ role := "user", content := .Text "hi" }]
    stream := some true
    max_tokens := none
    temperature := none
    top_p := none }

/-- Counterexample to C3: for a streaming chat request whose model is in
neither registry, nothing is surfaced to the caller at all — the worker
emits no frames and sends no reply (the not-found error is only written to
the response channel, which a streaming envelope does not carry), so no
bad-request-class failure reaches the client. -/
theorem streaming_not_found_surfaces_nothing :
    (worker_pool_chat [] [] ghost_stream_request false true "uuid-c3" 0).frames = [] ∧
    (worker_pool_chat [] [] ghost_stream_request false true "uuid-c3" 0).reply = none := by
  exact ⟨rfl, rfl⟩

/-- C3 as amended: when the model is absent from both registries, a
buffered request gets the reply Model name not found, which the chat
handler converts through the From String impl into an
InternalServerError — a 500-class failure, not a 400-class one — while a
streaming request surfaces nothing: no frames and no reply. -/
theorem model_not_found_behavior (llm : List (String × LlmRuntime))
    (mm : List (String × MultimodalRuntime)) (request : ChatCompletionRequest)
    (id : String) (created : Nat)
    (hllm : lookupReg llm request.model = none)
    (hmm : lookupReg mm request.model = none) :
    (worker_pool_chat llm mm request true false id created).reply =
      some (.error ("Model " ++ request.model ++ " not found")) ∧
    chat_completions_buffered (.error ("Model " ++ request.model ++ " not found")) =
      .error (.InternalServerError ("Model " ++ request.model ++ " not found")) ∧
    (AppError.InternalServerError ("Model " ++ request.model ++ " not found")).status = 500 ∧
    (worker_pool_chat llm mm request false true id created).frames = [] ∧
    (worker_pool_chat llm mm request false true id created).reply = none := by
  refine ⟨?_, rfl, rfl, ?_, ?_⟩ <;>
    simp [worker_pool_chat, hllm, hmm]

/-- Witness for the amended C3 at the ghost request. -/
theorem model_not_found_behavior_witness :
    (worker_pool_chat [] [] ghost_stream_request true false "uuid-c3w" 9).reply =
      some (.error ("Model " ++ ghost_stream_request.model ++ " not found")) ∧
    chat_completions_buffered
        (.error ("Model " ++ ghost_stream_request.model ++ " not found")) =
      .error (.InternalServerError ("Model " ++ ghost_stream_request.model ++ " not found")) ∧
    (AppError.InternalServerError
        ("Model " ++ ghost_stream_request.model ++ " not found")).status = 500 ∧
    (worker_pool_chat [] [] ghost_stream_request false true "uuid-c3w" 9).frames = [] ∧
    (worker_pool_chat [] [] ghost_stream_request false true "uuid-c3w" 9).reply = none :=
  model_not_found_behavior [] [] ghost_stream_request "uuid-c3w" 9 rfl rfl

/-- The defaulted generation options of a request; abbreviation used by the
statements below. -/
def request_gen_opts (request : ChatCompletionRequest) : GenerationOptions :=
  GenerationOptions.from_request request.max_tokens request.temperature request.top_p

/-- C6: for a buffered chat envelope whose model resolves to a runtime, if
the backend generation call that the dispatch table selects returns an
error, the worker still replies with a successful chat response whose
single choice has the empty string as message content; the backend error
itself never appears in the reply. -/
theorem buffered_backend_error_empty_content (llm : List (String × LlmRuntime))
    (mm : List (String × MultimodalRuntime)) (request : ChatCompletionRequest)
    (id : String) (created : Nat) (e : String)
    (hcall :
      ((extract_prompt request.messages).2 = [] ∧
        ∃ rt, lookupReg llm request.model = some rt ∧
          rt.generate (extract_prompt request.messages).1 (request_gen_opts request) =
            .error e) ∨
      ((extract_prompt request.messages).2 ≠ [] ∧
        ∃ rt, lookupReg mm request.model = some rt ∧
          rt.generate_from_vision (extract_prompt request.messages).1
            (extract_prompt request.messages).2 (request_gen_opts request) = .error e) ∨
      ((extract_prompt request.messages).2 ≠ [] ∧
        lookupReg mm request.model = none ∧
        ∃ rt, lookupReg llm request.model = some rt ∧
          rt.generate (extract_prompt request.messages).1 (request_gen_opts request) =
            .error e)) :
    (worker_pool_chat llm mm request true false id created).reply =
      some (.ok (buffered_response_of id created request.model "")) := by
  rcases hcall with ⟨hurls, rt, hrt, hgen⟩ | ⟨hurls, rt, hrt, hgen⟩ | ⟨hurls, hmm, rt, hrt, hgen⟩ <;>
    unfold request_gen_opts at hgen
  · simp [worker_pool_chat, buffered_generated, hurls, hrt, hgen, unwrap_or_default]
  · have hne : ((extract_prompt request.messages).2).isEmpty = false := by
      simpa using hurls
    simp [worker_pool_chat, buffered_generated, hne, hrt, hgen, unwrap_or_default]
  · have hne : ((extract_prompt request.messages).2).isEmpty = false := by
      simpa using hurls
    simp [worker_pool_chat, buffered_generated, hne, hmm, hrt, hgen, unwrap_or_default]

/-- An llm runtime whose backend always fails; a concrete input for the
witnesses below. -/
def failing_llm : LlmRuntime := { generate := fun _ _ => .error "backend down" }

/-- Witness for C6: a buffered request against a failing backend yields a
successful reply with empty content. -/
theorem buffered_backend_error_empty_content_witness :
    (worker_pool_chat [("m", failing_llm)] []
      { model := "m"
        messages := [{ role := "user", content := .Text "x" }]
        stream := some false, max_tokens := none, temperature := none, top_p := none }
      true false "uuid-c6w" 7).reply =
      some (.ok (buffered_response_of "uuid-c6w" 7 "m" "")) :=
  buffered_backend_error_empty_content [("m", failing_llm)] []
    { model := "m"
      messages := [{ role := "user", content := .Text "x" }]
      stream := some false, max_tokens := none, temperature := none, top_p := none }
    "uuid-c6w" 7 "backend down" (Or.inl ⟨rfl, failing_llm, rfl, rfl⟩)

/-- C5: the response cache is consulted only in buffered mode.  A streaming
call computes no fingerprint, leaves the cache untouched, and still
enqueues; a buffered call computes the request fingerprint; on a hit it
returns the cached response without enqueueing and without touching the
cache; on a miss it enqueues, and inserts the reply under the fingerprint
exactly when the buffered completion succeeds. -/
theorem cache_only_buffered (cache : List (String × ChatCompletionResponse))
    (request : ChatCompletionRequest)
    (worker_reply : Option (Except String ChatCompletionResponse))
    (resp : ChatCompletionResponse) :
    ((process_chat_request cache request true worker_reply).fingerprint = none ∧
     (process_chat_request cache request true worker_reply).cache = cache ∧
     (process_chat_request cache request true worker_reply).enqueued = true ∧
     (process_chat_request cache request true worker_reply).result =
       .error "Streaming response handled via sender") ∧
    ((process_chat_request cache request false worker_reply).fingerprint =
       some (hash_chat_request request)) ∧
    (lookupReg cache (hash_chat_request request) = some resp →
      process_chat_request cache request false worker_reply =
        { result := .ok resp, cache := cache, enqueued := false,
          fingerprint := some (hash_chat_request request) }) ∧
    (lookupReg cache (hash_chat_request request) = none →
      (process_chat_request cache request false worker_reply).enqueued = true ∧
      (worker_reply = some (.ok resp) →
        (process_chat_request cache request false worker_reply).cache =
          cacheInsert cache (hash_chat_request request) resp ∧
        (process_chat_request cache request false worker_reply).result = .ok resp) ∧
      (∀ e : String, worker_reply = some (.error e) →
        (process_chat_request cache request false worker_reply).cache = cache ∧
        (process_chat_request cache request false worker_reply).result = .error e)) := by
  refine ⟨⟨rfl, rfl, rfl, rfl⟩, ?_, ?_, ?_⟩
  · simp only [process_chat_request, Bool.not_false, if_true]
    cases hl : lookupReg cache (hash_chat_request request)
    · cases worker_reply with
      | none => rfl
      | some result => cases result <;> rfl
    · rfl
  · intro hhit
    simp [process_chat_request, hhit]
  · intro hmiss
    refine ⟨?_, ?_, ?_⟩
    · simp only [process_chat_request, Bool.not_false, if_true, hmiss]
      cases worker_reply with
      | none => rfl
      | some result => cases result <;> rfl
    · intro hok
      subst hok
      simp [process_chat_request, hmiss]
    · intro e herr
      subst herr
      simp [process_chat_request, hmiss]

/-- A concrete buffered request and response for the cache witness. -/
def cache_wreq : ChatCompletionRequest :=
  { model := "dummy-model"
    messages := [{ role := "user", content := .Text "hello" }]
    stream := some false
    max_tokens := some 3
    temperature := none
    top_p := none }

def cache_wresp : ChatCompletionResponse :=
  buffered_response_of "uuid-c5" 3 "dummy-model" "Echo: hel"

/-- Witness for C5: a hit on a cache holding the fingerprint of the
concrete request returns the cached value without enqueueing; a miss on the
empty cache enqueues and stores the successful reply; a streaming call
computes no fingerprint. -/
theorem cache_only_buffered_witness :
    process_chat_request [(hash_chat_request cache_wreq, cache_wresp)] cache_wreq false
        (some (.ok cache_wresp)) =
      { result := .ok cache_wresp
        cache := [(hash_chat_request cache_wreq, cache_wresp)]
        enqueued := false
        fingerprint := some (hash_chat_request cache_wreq) } ∧
    (process_chat_request [] cache_wreq false (some (.ok cache_wresp))).cache =
      cacheInsert [] (hash_chat_request cache_wreq) cache_wresp ∧
    (process_chat_request [] cache_wreq true none).fingerprint = none := by
  refine ⟨?_, ?_, ?_⟩
  · exact (cache_only_buffered [(hash_chat_request cache_wreq, cache_wresp)] cache_wreq
      (some (.ok cache_wresp)) cache_wresp).2.2.1 (by simp [lookupReg])
  · exact (((cache_only_buffered [] cache_wreq (some (.ok cache_wresp))
      cache_wresp).2.2.2 rfl).2.1 rfl).1
  · exact (cache_only_buffered [] cache_wreq none cache_wresp).1.1

/-- strip_bearer succeeds exactly on headers of the exact form
Bearer token, and returns that token. -/
theorem strip_bearer_some_iff (h tok : String) :
    strip_bearer h = some tok ↔ h = "Bearer " ++ tok := by
  constructor
  · intro hs
    unfold strip_bearer at hs
    split at hs
    · next rest heq =>
      injection hs with hs2
      subst hs2
      cases h with
      | mk d =>
        simp only at heq
        subst heq
        rfl
    · exact absurd hs (by simp)
  · intro he
    subst he
    cases tok with
    | mk d => rfl

/-- C7: with an empty configured key list every request passes; with a
non-empty list a request is accepted only when the authorization header has
the exact form Bearer token with the token in the list and the token under
its rate quota; a listed token over quota is rejected with the rate-limited
failure; a header without the bearer form, or with an unlisted token, is
rejected with Unauthorized; the quota is 60 per minute and the two
failures are distinct. -/
theorem auth_gate_spec (keys_env : String) (auth_header : Option String)
    (rl : RateLimiterState) (t : String) :
    (parse_api_keys keys_env = [] →
      (authorize_request keys_env auth_header rl).1 = .ok ()) ∧
    (parse_api_keys keys_env ≠ [] →
      (((authorize_request keys_env auth_header rl).1 = .ok ()) →
        ∃ tok, auth_header.getD "" = "Bearer " ++ tok ∧
          tok ∈ parse_api_keys keys_env ∧ (rate_limit_check rl tok).1 = true) ∧
      (auth_header.getD "" = "Bearer " ++ t → t ∈ parse_api_keys keys_env →
        ((rate_limit_check rl t).1 = true →
          (authorize_request keys_env auth_header rl).1 = .ok ()) ∧
        ((rate_limit_check rl t).1 = false →
          (authorize_request keys_env auth_header rl).1 = .error "Rate limit exceeded")) ∧
      (strip_bearer (auth_header.getD "") = none →
        (authorize_request keys_env auth_header rl).1 = .error "Unauthorized") ∧
      (strip_bearer (auth_header.getD "") = some t →
        (parse_api_keys keys_env).contains t = false →
        (authorize_request keys_env auth_header rl).1 = .error "Unauthorized")) ∧
    (rate_limit_quota = 60 ∧
      ((rate_limit_check rl t).1 = false ↔
        rate_limit_quota ≤ (lookupReg rl.used t).getD 0)) ∧
    ((Except.error "Rate limit exceeded" : Except String Unit) ≠ .error "Unauthorized") := by
  have hdec : (rate_limit_check rl t).1 =
      decide ((lookupReg rl.used t).getD 0 < rate_limit_quota) := by
    unfold rate_limit_check
    by_cases hlt : (lookupReg rl.used t).getD 0 < rate_limit_quota <;> simp [hlt]
  refine ⟨?_, ?_, ⟨rfl, ?_⟩, by simp⟩
  · intro hempty
    simp [authorize_request, hempty]
  · intro hne
    have hemp : (parse_api_keys keys_env).isEmpty = false := by
      simpa using hne
    refine ⟨?_, ?_, ?_, ?_⟩
    · intro hok
      unfold authorize_request at hok
      simp only [hemp, Bool.false_eq_true, if_false] at hok
      cases hstrip : strip_bearer (auth_header.getD "") with
      | none => rw [hstrip] at hok; exact absurd hok (by simp)
      | some token =>
        rw [hstrip] at hok
        by_cases hcont : (parse_api_keys keys_env).contains token
        · by_cases hrc : (rate_limit_check rl token).1
          · exact ⟨token, (strip_bearer_some_iff _ _).mp hstrip,
              by simpa using hcont, hrc⟩
          · simp only [Bool.not_eq_true] at hrc
            have hm : token ∈ parse_api_keys keys_env := by simpa using hcont
            simp [hm, hrc] at hok
        · simp only [Bool.not_eq_true] at hcont
          have hm : token ∉ parse_api_keys keys_env := by simpa using hcont
          simp [hm] at hok
    · intro hform hmem
      have hstrip : strip_bearer (auth_header.getD "") = some t :=
        (strip_bearer_some_iff _ _).mpr hform
      have hcont : (parse_api_keys keys_env).contains t = true := by
        simpa using hmem
      constructor
      · intro hrc
        simp [authorize_request, hemp, hstrip, hcont, hrc, hmem]
      · intro hrc
        simp [authorize_request, hemp, hstrip, hcont, hrc, hmem]
    · intro hstrip
      simp [authorize_request, hemp, hstrip]
    · intro hstrip hcont
      have hnm : t ∉ parse_api_keys keys_env := by
        simpa using hcont
      simp [authorize_request, hemp, hstrip, hcont, hnm]
  · rw [hdec]
    simp only [decide_eq_false_iff_not]
    omega

/-- Witness for C7: with keys k1,k2 a well-formed header under quota passes,
an over-quota token is rate-limited, an unlisted token and a malformed
header are Unauthorized, and with no keys everything passes. -/
theorem auth_gate_spec_witness :
    (authorize_request "k1,k2" (some "Bearer k1") ⟨[]⟩).1 = .ok () ∧
    (authorize_request "k1,k2" (some "Bearer k1") ⟨[("k1", 60)]⟩).1 =
      .error "Rate limit exceeded" ∧
    (authorize_request "k1,k2" (some "Bearer zz") ⟨[]⟩).1 = .error "Unauthorized" ∧
    (authorize_request "k1,k2" (some "k1") ⟨[]⟩).1 = .error "Unauthorized" ∧
    (authorize_request "" (some "anything") ⟨[]⟩).1 = .ok () := by
  refine ⟨?_, ?_, ?_, ?_, ?_⟩
  · exact (((auth_gate_spec "k1,k2" (some "Bearer k1") ⟨[]⟩ "k1").2.1
      (by decide)).2.1 (by decide) (by decide)).1 (by decide)
  · exact (((auth_gate_spec "k1,k2" (some "Bearer k1") ⟨[("k1", 60)]⟩ "k1").2.1
      (by decide)).2.1 (by decide) (by decide)).2 (by decide)
  · exact (((auth_gate_spec "k1,k2" (some "Bearer zz") ⟨[]⟩ "zz").2.1
      (by decide)).2.2.2 (by decide)) (by decide)
  · exact ((auth_gate_spec "k1,k2" (some "k1") ⟨[]⟩ "x").2.1
      (by decide)).2.2.1 (by decide)
  · exact (auth_gate_spec "" (some "anything") ⟨[]⟩ "x").1 (by decide)

/-- C9: the images handler base64-encodes every returned byte array into a
b64_json field unconditionally.  The response_format field (whose serde
default is b64_json) is never consulted: replacing it by any value leaves
the handler output unchanged, every data element carries b64_json with the
standard encoding of its byte array, and no element ever carries a url. -/
theorem images_b64_unconditional (request : ImagesGenerationRequest)
    (engine_result : Except String (List (List Nat))) (created : Nat)
    (fmt : String) (images : List (List Nat)) :
    images_generations { request with response_format := fmt } engine_result created =
      images_generations request engine_result created ∧
    default_response_format = "b64_json" ∧
    (engine_result = .ok images →
      ∃ resp, images_generations request engine_result created = .ok resp ∧
        resp.created = created ∧
        resp.data.map (fun d => d.b64_json) =
          images.map (fun bytes => some (base64_encode bytes)) ∧
        (∀ d ∈ resp.data, d.url = none)) := by
  refine ⟨rfl, rfl, ?_⟩
  intro hok
  subst hok
  refine ⟨_, rfl, rfl, ?_, ?_⟩
  · simp [images_generations, List.map_map]
  · intro d hd
    simp only [images_generations, List.mem_map] at hd
    obtain ⟨bytes, _, hb⟩ := hd
    rw [← hb]

/-- Witness for C9: two one-byte images with response_format url still come
back as b64_json data with no url field. -/
theorem images_b64_unconditional_witness :
    images_generations
        { model := "dummy-image", prompt := "a cute cat", n := 2, size := "256x256",
          response_format := "url" }
        (.ok [[77, 97, 110], [77]]) 1700000001 =
      images_generations
        { model := "dummy-image", prompt := "a cute cat", n := 2, size := "256x256",
          response_format := default_response_format }
        (.ok [[77, 97, 110], [77]]) 1700000001 ∧
    images_generations
        { model := "dummy-image", prompt := "a cute cat", n := 2, size := "256x256",
          response_format := default_response_format }
        (.ok [[77, 97, 110], [77]]) 1700000001 =
      .ok { created := 1700000001
            data := [{ b64_json := some "TWFu", url := none, revised_prompt := none },
                     { b64_json := some "TQ==", url := none, revised_prompt := none }] } := by
  constructor
  · exact (images_b64_unconditional
      { model := "dummy-image", prompt := "a cute cat", n := 2, size := "256x256",
        response_format := default_response_format }
      (.ok [[77, 97, 110], [77]]) 1700000001 "url" [[77, 97, 110], [77]]).1
  · rfl

/-- C10: the admin unload operation accepts exactly the kinds llm,
embedding and multimodal; the kind image (like every other unlisted kind)
is the unknown-kind error; and no successful unload of any kind ever
changes the image registry, so an image-registry entry can never be removed
through unload. -/
theorem unload_never_touches_image (st st2 : RegistryState) (kind name : String) :
    unload_model st "image" name = .error "unknown kind" ∧
    (kind ≠ "llm" → kind ≠ "embedding" → kind ≠ "multimodal" →
      unload_model st kind name = .error "unknown kind") ∧
    ((unload_model st "llm" name).isOk ∧ (unload_model st "embedding" name).isOk ∧
      (unload_model st "multimodal" name).isOk) ∧
    (unload_model st kind name = .ok st2 → st2.image = st.image) := by
  refine ⟨rfl, ?_, ⟨rfl, rfl, rfl⟩, ?_⟩
  · intro h1 h2 h3
    simp [unload_model, h1, h2, h3]
  · intro hok
    unfold unload_model at hok
    split at hok
    · cases hok; rfl
    · split at hok
      · cases hok; rfl
      · split at hok
        · cases hok; rfl
        · cases hok

/-- Witness for C10: unloading kind image errs while unloading the dummy
llm entry succeeds and leaves the image registry intact. -/
theorem unload_never_touches_image_witness :
    unload_model initial_registries "image" "dummy-image" = .error "unknown kind" ∧
    ({ initial_registries with llm := [] } : RegistryState).image =
      initial_registries.image := by
  constructor
  · exact (unload_never_touches_image initial_registries initial_registries
      "image" "dummy-image").1
  · exact (unload_never_touches_image initial_registries
      { initial_registries with llm := [] } "llm" "dummy-model").2.2.2 rfl

/-- C2 evidence: CoreEngine::list_models on the freshly initialized
registries yields all four name lists, the image list included.  The
admin_models_list handler in routes.rs, however, binds only three of these
four lists and builds its ModelsListResponse without the image field that
dto.rs declares, so the image list the engine provides is dropped (the
handler as written does not even typecheck against the four-tuple and the
four-field response type). -/
theorem list_models_initial_four_lists :
    list_models initial_registries =
      (["dummy-model"], ["dummy-embedding"], ["dummy-model"], ["dummy-image"]) := by
  rfl

end LlmServing

